/-
Verification of the customer-support email agent's core pipeline:
escalation decision, escalation path, finalization, dispatch, and the
conversation log, shallowly embedded from the Python sources
(src/agent/nodes.py, src/agent/graph.py,
src/knowledge_base/conversation_history.py).

External collaborators (the LLM, the vector search, the mailbox) are
modelled as an oracle record supplying each call's outcome; a Python
exception raised by a collaborator is an `Except.error msg`.
Floating-point scores are modelled as rationals.
-/
import Mathlib

namespace EmailAgent

/-! ## Python string primitives

The Python code only ever splits/replaces/strips on single characters,
so we model those operations structurally over `List Char` (core
`String.splitOn`/`String.replace` use well-founded recursion, which does
not reduce definitionally). -/

/-- Python `str.split(c)` for a single-character separator: keeps empty
pieces, always returns at least one piece. -/
def splitOnChar (c : Char) : List Char → List (List Char)
  | [] => [[]]
  | x :: xs =>
    let rest := splitOnChar c xs
    if x = c then [] :: rest
    else (x :: rest.headD []) :: rest.tail

/-- Python `str.replace(a, b)` for single characters. -/
def replaceChar (a b : Char) (s : List Char) : List Char :=
  s.map fun c => if c = a then b else c

/-- Python `str.replace(a, '')` for a single character (deletion). -/
def removeChar (a : Char) (s : List Char) : List Char :=
  s.filter fun c => c ≠ a

/-- Python `str.strip()` (whitespace at both ends). -/
def pyStrip (s : List Char) : List Char :=
  ((s.dropWhile Char.isWhitespace).reverse.dropWhile Char.isWhitespace).reverse

/-- Python `str.strip(c)` for a single strip character. -/
def pyStripChar (c : Char) (s : List Char) : List Char :=
  ((s.dropWhile (· = c)).reverse.dropWhile (· = c)).reverse

/-- Python `str.isdigit()` (ASCII): non-empty and all digits. -/
def pyIsDigit (s : List Char) : Bool :=
  !s.isEmpty && s.all Char.isDigit

/-- Python `str.lower()` (ASCII). -/
def pyLower (s : String) : String :=
  ⟨s.data.map Char.toLower⟩

/-- Python `str.title()`: upper-case every letter that does not follow a
letter, lower-case every letter that does. -/
def pyTitleAux : List Char → Bool → List Char
  | [], _ => []
  | c :: cs, prevAlpha =>
    (if c.isAlpha then (if prevAlpha then c.toLower else c.toUpper) else c)
      :: pyTitleAux cs c.isAlpha

def pyTitle (s : List Char) : List Char := pyTitleAux s false

/-- Python `str.split()` (no argument): split on whitespace runs,
dropping empty pieces. -/
def pyWords (s : List Char) : List (List Char) :=
  (s.splitOnP Char.isWhitespace).filter fun w => ¬ w.isEmpty

/-! ## Escalation decision — `EmailAgentNodes._check_human_review_required`
(src/agent/nodes.py lines 102-136). -/

/-- The slice of the configuration the decision function reads:
`human_in_loop.enabled`, `human_in_loop.triggers[1].complexity_score`
(the complexity threshold, 0.7 in the shipped config) and
`human_in_loop.triggers[2].sensitive_topics` (the vocabulary). -/
structure HumanInLoopConfig where
  enabled : Bool
  complexityThreshold : ℚ
  sensitiveTopics : List String

/-- The parsed classification dictionary the LLM returns: every field is
optional because the Python code reads it with `dict.get` defaults. -/
structure ClassDict where
  category : Option String
  urgency : Option String
  complexity_score : Option ℚ
  sensitive_topics : Option (List String)
  reasoning : Option String

/-- `_check_human_review_required`: returns `false` when human-in-loop is
disabled; otherwise escalates on (1) lower-cased urgency high/critical,
(2) complexity at or above the configured threshold, (3) a sensitive
topic from the vocabulary combined with high/critical urgency or
complexity ≥ 0.5. -/
def checkHumanReviewRequired (cfg : HumanInLoopConfig) (c : ClassDict) : Bool :=
  if cfg.enabled = false then false
  else
    let urgency := pyLower (c.urgency.getD "")
    if urgency = "high" ∨ urgency = "critical" then true
    else
      let complexity := c.complexity_score.getD 0
      if cfg.complexityThreshold ≤ complexity then true
      else
        let sensitive := c.sensitive_topics.getD []
        let hasSensitive := sensitive.any fun t => cfg.sensitiveTopics.contains t
        if hasSensitive ∧ (urgency = "high" ∨ urgency = "critical" ∨ mkRat 1 2 ≤ complexity)
        then true
        else false

/-! ## Sender display-name extraction — `EmailAgentNodes._extract_name`
(src/agent/nodes.py lines 249-280). -/

/-- `_extract_name`: (a) display name before an angle bracket when
non-trivial and not purely numeric; (b) else the local part of the
address with `.`/`_`/`-` turned into spaces and title-cased, accepted
when it is 1–3 words without digits; (c) else `"Valued Customer"`. -/
def extractName (fromEmail : String) : String :=
  let s := fromEmail.data
  let branch1 : Option (List Char) :=
    if s.contains '<' ∧ s.contains '>' then
      let namePart := pyStrip ((splitOnChar '<' s).headD [])
      let namePart := pyStripChar '\'' (pyStripChar '"' namePart)
      if ¬ namePart.isEmpty ∧ namePart.length > 1 ∧ ¬ pyIsDigit namePart then
        some namePart
      else none
    else none
  match branch1 with
  | some n => ⟨n⟩
  | none =>
    let emailClean := pyStrip (removeChar '>' (removeChar '<' s))
    let username := (splitOnChar '@' emailClean).headD []
    let username := replaceChar '-' ' ' (replaceChar '_' ' ' (replaceChar '.' ' ' username))
    if ¬ username.isEmpty ∧ ¬ pyIsDigit username then
      let name := pyTitle username
      let words := pyWords name
      if 1 ≤ words.length ∧ words.length ≤ 3 ∧ ¬ name.any Char.isDigit then
        ⟨name⟩
      else "Valued Customer"
    else "Valued Customer"

/-! ## Data model — `src/agent/state.py` -/

/-- JSON-like values, used for the free-form metadata stored with
conversation entries (Python `Dict[str, Any]`). -/
inductive JsonVal where
  | str : String → JsonVal
  | num : ℚ → JsonVal
  | bool : Bool → JsonVal
  | arr : List JsonVal → JsonVal
  | obj : List (String × JsonVal) → JsonVal

/-- `EmailClassification` (pydantic model, src/agent/state.py). -/
structure EmailClassification where
  category : String
  urgency : String
  complexity_score : ℚ
  requires_human_review : Bool
  reasoning : String
  sensitive_topics : List String

/-- `state['classification'].dict()` as stored in conversation metadata
(pydantic field order), `{}` when the classification is absent. -/
def classificationJson : Option EmailClassification → JsonVal
  | none => .obj []
  | some c => .obj
      [("category", .str c.category),
       ("urgency", .str c.urgency),
       ("complexity_score", .num c.complexity_score),
       ("requires_human_review", .bool c.requires_human_review),
       ("reasoning", .str c.reasoning),
       ("sensitive_topics", .arr (c.sensitive_topics.map .str))]

/-- One conversation entry (`ConversationHistory.add_message` builds it
with role, content, a wall-clock timestamp and free-form metadata). -/
structure Message where
  role : String
  content : String
  timestamp : String
  metadata : List (String × JsonVal)

/-- `AgentState` (TypedDict, src/agent/state.py). -/
structure AgentState where
  email_id : String
  from_email : String
  to_email : List String
  subject : String
  body : String
  received_at : String
  classification : Option EmailClassification
  retrieved_context : List String
  draft_response : Option String
  human_review_required : Bool
  human_approved : Option Bool
  human_feedback : Option String
  final_response : Option String
  sent : Bool
  conversation_history : List Message
  error : Option String

/-- The inbound email handed to `process_email`. -/
structure EmailInput where
  id : String
  from_email : String
  to_email : List String
  subject : String
  body : String
  received_at : String

/-- The state `process_email` constructs (src/agent/graph.py 192-198). -/
def initialState (inp : EmailInput) : AgentState :=
  { email_id := inp.id
    from_email := inp.from_email
    to_email := inp.to_email
    subject := inp.subject
    body := inp.body
    received_at := inp.received_at
    classification := none
    retrieved_context := []
    draft_response := none
    human_review_required := false
    human_approved := none
    human_feedback := none
    final_response := none
    sent := false
    conversation_history := []
    error := none }

/-! ## Conversation log — `src/knowledge_base/conversation_history.py`.
In-memory dict of conversations plus the persisted JSON files, both
modelled as partial maps from conversation id. The file write/read in
`save_conversation`/`load_conversation` is modelled as reliable. -/

structure ConversationHistory where
  conversations : String → Option (List Message)
  disk : String → Option (List Message)

/-- `add_message`: create the per-id list if missing, then append. The
timestamp (`datetime.now()` in Python) is an explicit argument. -/
def ConversationHistory.add_message (ch : ConversationHistory) (conversation_id role content timestamp : String) (metadata : List (String × JsonVal)) : ConversationHistory :=
  let existing := (ch.conversations conversation_id).getD []
  { ch with conversations := fun k =>
      if k = conversation_id
      then some (existing ++ [⟨role, content, timestamp, metadata⟩])
      else ch.conversations k }

/-- `get_conversation`: the in-memory entries, `[]` when absent. -/
def ConversationHistory.get_conversation (ch : ConversationHistory) (conversation_id : String) : List Message :=
  (ch.conversations conversation_id).getD []

/-- `save_conversation`: no-op (with a warning) when the id is not in
memory, else write the in-memory list to the id's file. -/
def ConversationHistory.save_conversation (ch : ConversationHistory) (conversation_id : String) : ConversationHistory :=
  match ch.conversations conversation_id with
  | none => ch
  | some msgs =>
    { ch with disk := fun k => if k = conversation_id then some msgs else ch.disk k }

/-- `load_conversation`: no-op when the id's file does not exist, else
replace the in-memory list with the file contents. -/
def ConversationHistory.load_conversation (ch : ConversationHistory) (conversation_id : String) : ConversationHistory :=
  match ch.disk conversation_id with
  | none => ch
  | some msgs =>
    { ch with conversations := fun k =>
        if k = conversation_id then some msgs else ch.conversations k }

/-! ## Collaborator oracle

Each external call's outcome for one run: `Except.error msg` is a raised
exception carrying `str(e)`.  `classifyResult = .ok none` is the
"completion answered but no JSON block found" case, which the node
absorbs into the fallback classification. -/

structure Oracle where
  classifyResult : Except String (Option ClassDict)
  retrieveResult : Except String (List String)
  generateResult : Except String String
  sendResult : Except String Bool
  userTimestamp : String
  assistantTimestamp : String

/-! ## Pipeline nodes — `src/agent/nodes.py`, `src/agent/graph.py` -/

/-- Fallback classification dict substituted when no JSON block can be
extracted from the completion (src/agent/nodes.py 70-77). -/
def fallbackClassDict : ClassDict :=
  { category := some "general"
    urgency := some "medium"
    complexity_score := some (mkRat 1 2)
    sensitive_topics := some []
    reasoning := some "Unable to parse classification" }

/-- `classify_email` (src/agent/nodes.py 34-100). -/
def classifyNode (cfg : HumanInLoopConfig) (o : Oracle) (st : AgentState) : AgentState :=
  match o.classifyResult with
  | .error e => { st with error := some ("Classification failed: " ++ e) }
  | .ok od =>
    let result := od.getD fallbackClassDict
    let requires := checkHumanReviewRequired cfg result
    let c : EmailClassification :=
      { category := result.category.getD "general"
        urgency := result.urgency.getD "medium"
        complexity_score := result.complexity_score.getD (mkRat 1 2)
        requires_human_review := requires
        reasoning := result.reasoning.getD ""
        sensitive_topics := result.sensitive_topics.getD [] }
    { st with classification := some c, human_review_required := requires }

/-- `retrieve_context` (src/agent/nodes.py 138-168): any retrieval error
degrades to an empty context and sets no error. -/
def retrieveNode (o : Oracle) (st : AgentState) : AgentState :=
  match o.retrieveResult with
  | .ok docs => { st with retrieved_context := docs }
  | .error _ => { st with retrieved_context := [] }

/-- The fixed signature block appended to every generated draft. -/
def responseSignature : String :=
  "\n\nBest regards,\n\nFRIDAY\nSupport Assistant\nsupport@thalathai.pro"

/-- The fallback reply template used when generation fails
(src/agent/nodes.py 231-243). -/
def fallbackResponse (customerName subject : String) : String :=
  "Dear " ++ customerName ++
  ",\n\nThank you for contacting us. We have received your inquiry regarding: " ++
  subject ++
  "\n\nOur team is reviewing your request and will get back to you within 24 hours with a detailed response.\n\nIf this is urgent, please call us directly or reply to this email with additional details.\n\nBest regards,\n\nFRIDAY\nSupport Assistant\nsupport@thalathai.pro"

/-- `generate_response` (src/agent/nodes.py 170-247).  The
placeholder/closing sanitizer `_clean_response` (a battery of regex
rewrites whose internals no claim depends on) is the parameter
`clean`. -/
def generateNode (clean : String → String) (o : Oracle) (st : AgentState) : AgentState :=
  let customerName := extractName st.from_email
  match o.generateResult with
  | .ok content =>
    { st with draft_response := some (clean content ++ responseSignature) }
  | .error e =>
    { st with error := some ("Response generation failed: " ++ e)
              draft_response := some (fallbackResponse customerName st.subject) }

/-- `finalize_response` (src/agent/nodes.py 307-314). -/
def finalizeNode (st : AgentState) : AgentState :=
  if st.human_review_required = false then
    { st with final_response := st.draft_response, human_approved := some true }
  else st

/-- The holding reply sent to the customer on escalation
(src/agent/graph.py 71-85). -/
def holdingResponse (customerName subject timeframe : String) : String :=
  "Dear " ++ customerName ++
  ",\n\nThank you for contacting us regarding: " ++ subject ++
  "\n\nYour inquiry has been escalated to our specialist team due to the nature of your request.\n\nOne of our specialists will personally review your case and get back to you within " ++
  timeframe ++
  ".\n\nIf this matter is extremely urgent, please call us directly at our support hotline.\n\nBest regards,\n\nFRIDAY\nSupport Assistant\nsupport@thalathai.pro"

/-- `_escalate_to_human_node` (src/agent/graph.py 50-99).  The admin
notification `_notify_admin` swallows its own failures and never touches
the run state, so it does not appear here; name extraction and the
notification are total in the model, so the node's `except` branch is
unreachable. -/
def escalateNode (st : AgentState) : AgentState :=
  let customerName := extractName st.from_email
  let urgency := match st.classification with
    | some c => c.urgency
    | none => "high"
  let timeframe := if urgency = "critical" then "2 hours" else "24 hours"
  { st with
      final_response := some (holdingResponse customerName st.subject timeframe)
      human_approved := some false }

/-- `_route_after_generation` (src/agent/graph.py 44-48). -/
def routeAfterGeneration (st : AgentState) : String :=
  if st.human_review_required then "escalate" else "finalize"

/-- `_send_email_node` (src/agent/graph.py 157-189): on success append
the inbound body then the final reply to the conversation log and flush
it; on a `false` send result or an exception, record an error and leave
the log untouched. -/
def sendNode (o : Oracle) (st : AgentState) (ch : ConversationHistory) : AgentState × ConversationHistory :=
  match o.sendResult with
  | .error e =>
    ({ st with error := some ("Error sending email: " ++ e), sent := false }, ch)
  | .ok success =>
    let st := { st with sent := success }
    if success then
      let ch := ch.add_message st.email_id "user" st.body o.userTimestamp
        [("subject", .str st.subject), ("from", .str st.from_email)]
      let ch := ch.add_message st.email_id "assistant" (st.final_response.getD "")
        o.assistantTimestamp [("classification", classificationJson st.classification)]
      (st, ch.save_conversation st.email_id)
    else
      ({ st with error := some "Failed to send email" }, ch)

/-- The run state after classify → retrieve → generate
(the linear prefix of the graph, src/agent/graph.py 31-33). -/
def draftedState (cfg : HumanInLoopConfig) (clean : String → String) (o : Oracle) (inp : EmailInput) : AgentState :=
  generateNode clean o (retrieveNode o (classifyNode cfg o (initialState inp)))

/-- The run state after the conditional edge out of `generate_response`
(src/agent/graph.py 34-38): escalate or finalize. -/
def routedState (cfg : HumanInLoopConfig) (clean : String → String) (o : Oracle) (inp : EmailInput) : AgentState :=
  let st := draftedState cfg clean o inp
  if routeAfterGeneration st = "escalate" then escalateNode st else finalizeNode st

/-- The compiled graph (src/agent/graph.py 22-42):
classify → retrieve → generate → {escalate | finalize} → send. -/
def runPipeline (cfg : HumanInLoopConfig) (clean : String → String) (o : Oracle) (inp : EmailInput) (ch : ConversationHistory) : AgentState × ConversationHistory :=
  sendNode o (routedState cfg clean o inp) ch

/-! ## Auxiliary definitions for stating the properties -/

/-- `true` exactly on `Except.ok` (used to state which collaborator
calls succeeded). -/
def isOkE {α : Type} : Except String α → Bool
  | .ok _ => true
  | .error _ => false

/-- The data of one `add_message` call: role, content, timestamp,
metadata. -/
structure EntrySpec where
  role : String
  content : String
  timestamp : String
  metadata : List (String × JsonVal)

/-- The `Message` an `add_message` call with this data appends. -/
def mkMessage (e : EntrySpec) : Message :=
  ⟨e.role, e.content, e.timestamp, e.metadata⟩

/-- A sequence of `add_message` calls on one conversation id. -/
def addMessages (ch : ConversationHistory) (conversation_id : String) (es : List EntrySpec) : ConversationHistory :=
  es.foldl (fun ch e => ch.add_message conversation_id e.role e.content e.timestamp e.metadata) ch

/-! ## Concrete fixtures used by witnesses and counterexamples -/

/-- Concrete sanitizer instance (the sanitizer is irrelevant to every
property proved here, so the identity serves as the instance). -/
def cleanW : String → String := fun s => s

/-- Human-in-loop enabled, threshold 0.7, a two-word vocabulary. -/
def cfgW : HumanInLoopConfig := ⟨true, mkRat 7 10, ["legal", "refund"]⟩

/-- Same configuration with human-in-loop disabled. -/
def cfgDisabledW : HumanInLoopConfig := ⟨false, mkRat 7 10, ["legal", "refund"]⟩

def dictCriticalW : ClassDict := ⟨none, some "critical", some (mkRat 1 10), some [], none⟩

def dictLowW : ClassDict := ⟨some "billing", some "low", some (mkRat 2 10), some [], some "simple"⟩

def dictSens06W : ClassDict := ⟨none, some "medium", some (mkRat 6 10), some ["refund"], none⟩

def dictSens03W : ClassDict := ⟨none, some "medium", some (mkRat 3 10), some ["refund"], none⟩

/-- The `EmailClassification` the classify node builds from
`dictCriticalW` under `cfgW`. -/
def classCriticalW : EmailClassification := ⟨"general", "critical", mkRat 1 10, true, "", []⟩

def inpW : EmailInput :=
  ⟨"em-1", "Jane Doe <jane@x.com>", ["support@thalathai.pro"], "Refund status",
   "Where is my refund?", "2025-01-01T00:00:00"⟩

/-- An empty conversation store. -/
def chW : ConversationHistory := ⟨fun _ => none, fun _ => none⟩

/-- All collaborators succeed; the classification is critical. -/
def oracleEscW : Oracle :=
  ⟨.ok (some dictCriticalW), .ok ["passage"], .ok "Here is the answer", .ok true, "t1", "t2"⟩

/-- All collaborators succeed; the classification is low urgency. -/
def oracleOkW : Oracle :=
  ⟨.ok (some dictLowW), .ok ["passage"], .ok "Here is the answer", .ok true, "t1", "t2"⟩

/-- The classification collaborator raises; everything else succeeds. -/
def oracleClassifyFailW : Oracle :=
  ⟨.error "boom", .ok ["passage"], .ok "Here is the answer", .ok true, "t1", "t2"⟩

def entriesW : List EntrySpec :=
  [⟨"user", "hello", "t1", []⟩, ⟨"assistant", "world", "t2", [("subject", .str "s")]⟩]

/-! ## Helper lemmas -/

theorem pyTitleAux_length (l : List Char) : ∀ b, (pyTitleAux l b).length = l.length := by
  induction l with
  | nil => intro b; rfl
  | cons c cs ih => intro b; simp [pyTitleAux, ih]

theorem mkTitle_length_pos (l : List Char) (h : ¬ l.isEmpty = true) :
    0 < (String.mk (pyTitle l)).length := by
  show 0 < (pyTitle l).length
  unfold pyTitle
  rw [pyTitleAux_length, List.length_pos]
  simpa [List.isEmpty_iff] using h

/-- `_extract_name` always returns a non-empty string. -/
theorem extractName_length_pos (fe : String) : 0 < (extractName fe).length := by
  simp only [extractName]
  split
  · rename_i n heq
    split at heq
    · split at heq
      · rename_i hcond
        injection heq with heq'
        subst heq'
        exact Nat.lt_trans Nat.zero_lt_one hcond.2.1
      · exact absurd heq (by simp)
    · exact absurd heq (by simp)
  · split
    · split
      · rename_i hcond1 hcond2
        exact mkTitle_length_pos _ hcond1.1
      · decide
    · decide

theorem sendNode_hrr (o : Oracle) (st : AgentState) (ch : ConversationHistory) :
    (sendNode o st ch).1.human_review_required = st.human_review_required := by
  unfold sendNode
  cases o.sendResult with
  | error e => simp
  | ok b => cases b <;> simp

theorem sendNode_approved (o : Oracle) (st : AgentState) (ch : ConversationHistory) :
    (sendNode o st ch).1.human_approved = st.human_approved := by
  unfold sendNode
  cases o.sendResult with
  | error e => simp
  | ok b => cases b <;> simp

theorem sendNode_final_response (o : Oracle) (st : AgentState) (ch : ConversationHistory) :
    (sendNode o st ch).1.final_response = st.final_response := by
  unfold sendNode
  cases o.sendResult with
  | error e => simp
  | ok b => cases b <;> simp

theorem sendNode_cls (o : Oracle) (st : AgentState) (ch : ConversationHistory) :
    (sendNode o st ch).1.classification = st.classification := by
  unfold sendNode
  cases o.sendResult with
  | error e => simp
  | ok b => cases b <;> simp

theorem sendNode_error (o : Oracle) (st : AgentState) (ch : ConversationHistory) :
    (sendNode o st ch).1.error =
      match o.sendResult with
      | .error e => some ("Error sending email: " ++ e)
      | .ok true => st.error
      | .ok false => some "Failed to send email" := by
  unfold sendNode
  cases o.sendResult with
  | error e => simp
  | ok b => cases b <;> simp

theorem routedState_hrr (cfg : HumanInLoopConfig) (clean : String → String) (o : Oracle) (inp : EmailInput) :
    (routedState cfg clean o inp).human_review_required =
      (draftedState cfg clean o inp).human_review_required := by
  unfold routedState routeAfterGeneration
  cases h : (draftedState cfg clean o inp).human_review_required <;>
    simp [h, escalateNode, finalizeNode]

theorem routedState_error (cfg : HumanInLoopConfig) (clean : String → String) (o : Oracle) (inp : EmailInput) :
    (routedState cfg clean o inp).error = (draftedState cfg clean o inp).error := by
  unfold routedState routeAfterGeneration
  cases h : (draftedState cfg clean o inp).human_review_required <;>
    simp [h, escalateNode, finalizeNode]

theorem draftedState_hrr (cfg : HumanInLoopConfig) (clean : String → String) (o : Oracle) (inp : EmailInput) :
    (draftedState cfg clean o inp).human_review_required =
      match o.classifyResult with
      | .error _ => false
      | .ok od => checkHumanReviewRequired cfg (od.getD fallbackClassDict) := by
  unfold draftedState generateNode retrieveNode classifyNode initialState
  cases o.classifyResult <;> cases o.retrieveResult <;> cases o.generateResult <;> simp

theorem draftedState_cls (cfg : HumanInLoopConfig) (clean : String → String) (o : Oracle) (inp : EmailInput) :
    (draftedState cfg clean o inp).classification =
      match o.classifyResult with
      | .error _ => none
      | .ok od =>
        some { category := (od.getD fallbackClassDict).category.getD "general"
               urgency := (od.getD fallbackClassDict).urgency.getD "medium"
               complexity_score := (od.getD fallbackClassDict).complexity_score.getD (mkRat 1 2)
               requires_human_review := checkHumanReviewRequired cfg (od.getD fallbackClassDict)
               reasoning := (od.getD fallbackClassDict).reasoning.getD ""
               sensitive_topics := (od.getD fallbackClassDict).sensitive_topics.getD [] } := by
  unfold draftedState generateNode retrieveNode classifyNode initialState
  cases o.classifyResult <;> cases o.retrieveResult <;> cases o.generateResult <;> simp

theorem draftedState_inputs (cfg : HumanInLoopConfig) (clean : String → String) (o : Oracle) (inp : EmailInput) :
    (draftedState cfg clean o inp).from_email = inp.from_email ∧
    (draftedState cfg clean o inp).subject = inp.subject ∧
    (draftedState cfg clean o inp).email_id = inp.id ∧
    (draftedState cfg clean o inp).body = inp.body := by
  unfold draftedState generateNode retrieveNode classifyNode initialState
  cases o.classifyResult <;> cases o.retrieveResult <;> cases o.generateResult <;> simp

theorem draftedState_error (cfg : HumanInLoopConfig) (clean : String → String) (o : Oracle) (inp : EmailInput) :
    (draftedState cfg clean o inp).error =
      match o.generateResult with
      | .error e => some ("Response generation failed: " ++ e)
      | .ok _ =>
        match o.classifyResult with
        | .error e => some ("Classification failed: " ++ e)
        | .ok _ => none := by
  unfold draftedState generateNode retrieveNode classifyNode initialState
  cases o.classifyResult <;> cases o.retrieveResult <;> cases o.generateResult <;> simp

theorem routedState_inputs (cfg : HumanInLoopConfig) (clean : String → String) (o : Oracle) (inp : EmailInput) :
    (routedState cfg clean o inp).from_email = inp.from_email ∧
    (routedState cfg clean o inp).subject = inp.subject ∧
    (routedState cfg clean o inp).email_id = inp.id ∧
    (routedState cfg clean o inp).body = inp.body := by
  have h := draftedState_inputs cfg clean o inp
  unfold routedState routeAfterGeneration
  cases hb : (draftedState cfg clean o inp).human_review_required <;>
    simp [hb, escalateNode, finalizeNode, h.1, h.2.1, h.2.2.1, h.2.2.2]

theorem addMessages_some (conversation_id : String) (es : List EntrySpec) :
    ∀ (ch : ConversationHistory) (msgs : List Message),
      ch.conversations conversation_id = some msgs →
      (addMessages ch conversation_id es).conversations conversation_id =
        some (msgs ++ es.map mkMessage) := by
  induction es with
  | nil => intro ch msgs h; simpa [addMessages] using h
  | cons e es ih =>
    intro ch msgs h
    have h1 : (ch.add_message conversation_id e.role e.content e.timestamp e.metadata).conversations conversation_id = some (msgs ++ [mkMessage e]) := by
      simp [ConversationHistory.add_message, h, mkMessage]
    have h2 := ih _ _ h1
    simpa [addMessages] using h2

/-! ## Claim theorems -/

/-- C1: with human-in-loop enabled (the precondition rendered explicit by
the spec's escalation rule set), every classification whose urgency is
`high` or `critical` makes the escalation decision return true, whatever
the complexity score, the threshold, and the sensitive-topic tags. -/
theorem high_or_critical_escalates (cfg : HumanInLoopConfig) (c : ClassDict)
    (hen : cfg.enabled = true)
    (hu : c.urgency = some "high" ∨ c.urgency = some "critical") :
    checkHumanReviewRequired cfg c = true := by
  have h1 : pyLower "high" = "high" := by decide
  have h2 : pyLower "critical" = "critical" := by decide
  rcases hu with h | h <;> simp [checkHumanReviewRequired, hen, h, h1, h2]

theorem high_or_critical_escalates_witness :
    checkHumanReviewRequired cfgW dictCriticalW = true :=
  high_or_critical_escalates cfgW dictCriticalW rfl (Or.inr rfl)

/-- C2: with the threshold at its default 0.7, a classification with
urgency `low` or `medium`, complexity below 0.7 and no sensitive topics
is never escalated (whether or not human-in-loop is enabled). -/
theorem low_medium_simple_not_escalated (cfg : HumanInLoopConfig) (c : ClassDict)
    (hth : cfg.complexityThreshold = mkRat 7 10)
    (hu : c.urgency = some "low" ∨ c.urgency = some "medium")
    (hc : c.complexity_score.getD 0 < mkRat 7 10)
    (hs : c.sensitive_topics.getD [] = ([] : List String)) :
    checkHumanReviewRequired cfg c = false := by
  have h1 : pyLower "low" = "low" := by decide
  have h2 : pyLower "medium" = "medium" := by decide
  have hcle : ¬ (mkRat 7 10 ≤ c.complexity_score.getD 0) := not_le.mpr hc
  rcases hu with h | h <;>
    simp [checkHumanReviewRequired, hth, h, h1, h2, hs, hcle]

theorem low_medium_simple_not_escalated_witness :
    checkHumanReviewRequired cfgW dictLowW = false :=
  low_medium_simple_not_escalated cfgW dictLowW rfl (Or.inl rfl) (by decide) rfl

/-- C3: with human-in-loop enabled and the threshold at its default 0.7,
a classification carrying a sensitive topic from the vocabulary whose
urgency is neither high nor critical and whose complexity is below the
threshold escalates exactly when the complexity is at least 0.5 (the
claim's two particular cases are the witness). -/
theorem sensitive_topic_gate (cfg : HumanInLoopConfig) (c : ClassDict)
    (hen : cfg.enabled = true)
    (hth : cfg.complexityThreshold = mkRat 7 10)
    (hsens : (c.sensitive_topics.getD []).any (fun t => cfg.sensitiveTopics.contains t) = true)
    (hu1 : pyLower (c.urgency.getD "") ≠ "high")
    (hu2 : pyLower (c.urgency.getD "") ≠ "critical")
    (hc : c.complexity_score.getD 0 < mkRat 7 10) :
    (checkHumanReviewRequired cfg c = true ↔ mkRat 1 2 ≤ c.complexity_score.getD 0) := by
  have hcle : ¬ (mkRat 7 10 ≤ c.complexity_score.getD 0) := not_le.mpr hc
  have hsens' : ∃ x ∈ c.sensitive_topics.getD [], x ∈ cfg.sensitiveTopics := by
    simpa using hsens
  simp [checkHumanReviewRequired, hen, hth, hsens', hu1, hu2, hcle]

theorem sensitive_topic_gate_witness :
    checkHumanReviewRequired cfgW dictSens06W = true ∧
    checkHumanReviewRequired cfgW dictSens03W = false := by
  constructor
  · exact (sensitive_topic_gate cfgW dictSens06W rfl rfl (by decide) (by decide)
      (by decide) (by decide)).mpr (by decide)
  · have h := sensitive_topic_gate cfgW dictSens03W rfl rfl (by decide) (by decide)
      (by decide) (by decide)
    have hle : ¬ (mkRat 1 2 ≤ (dictSens03W.complexity_score.getD 0)) := by decide
    cases hcheck : checkHumanReviewRequired cfgW dictSens03W
    · rfl
    · exact absurd (h.mp hcheck) hle

/-- C9: display-name extraction is total and always yields a non-empty
string (totality holds by construction of the model: every branch of
`_extract_name` returns), and the three documented examples evaluate as
specified. -/
theorem extract_name_spec :
    (∀ fe : String, 0 < (extractName fe).length) ∧
    extractName "Jane Doe <jane@x.com>" = "Jane Doe" ∧
    extractName "j.doe@x.com" = "J Doe" ∧
    extractName "12345@x.com" = "Valued Customer" :=
  ⟨extractName_length_pos, by decide, by decide, by decide⟩

/-- C4: on every run that takes the escalation path, the final reply is
the holding-reply template (built from the sender's display name and the
subject), never the drafted response, and its promised timeframe is
"2 hours" exactly when the classification's urgency equals `critical`,
else "24 hours". -/
theorem escalation_holding_reply (cfg : HumanInLoopConfig) (clean : String → String) (o : Oracle) (inp : EmailInput) (ch : ConversationHistory) (c : EmailClassification)
    (hreq : (runPipeline cfg clean o inp ch).1.human_review_required = true)
    (hcls : (runPipeline cfg clean o inp ch).1.classification = some c) :
    (runPipeline cfg clean o inp ch).1.final_response =
      some (holdingResponse (extractName inp.from_email) inp.subject
        (if c.urgency = "critical" then "2 hours" else "24 hours")) := by
  unfold runPipeline at hreq hcls ⊢
  rw [sendNode_hrr] at hreq
  rw [sendNode_cls] at hcls
  rw [sendNode_final_response]
  have hdr : (draftedState cfg clean o inp).human_review_required = true := by
    rw [← routedState_hrr cfg clean o inp]; exact hreq
  have hin := draftedState_inputs cfg clean o inp
  simp only [routedState, routeAfterGeneration] at hcls ⊢
  simp only [hdr, reduceIte] at hcls ⊢
  unfold escalateNode at hcls ⊢
  simp at hcls
  simp [hin.1, hin.2.1, hcls]

theorem escalation_holding_reply_witness :
    (runPipeline cfgW cleanW oracleEscW inpW chW).1.final_response =
      some (holdingResponse (extractName inpW.from_email) inpW.subject
        (if classCriticalW.urgency = "critical" then "2 hours" else "24 hours")) :=
  escalation_holding_reply cfgW cleanW oracleEscW inpW chW classCriticalW rfl rfl

/-- C5 counterexample: a concrete escalated run ends with the
human-approval field set to `some false` — the declined/false value of
the tri-state — so the automated path does set it. -/
theorem escalation_sets_declined :
    (runPipeline cfgW cleanW oracleEscW inpW chW).1.human_approved = some false := by
  rfl

/-- C5 amended: the automated pipeline always sets the human-approval
outcome, to approved on the finalization path and to the false/declined
value on the escalation path — i.e. it always equals the negation of the
escalation flag, and is never left unset at the end of a run. -/
theorem human_approved_tracks_review (cfg : HumanInLoopConfig) (clean : String → String) (o : Oracle) (inp : EmailInput) (ch : ConversationHistory) :
    (runPipeline cfg clean o inp ch).1.human_approved =
      some (!(runPipeline cfg clean o inp ch).1.human_review_required) := by
  unfold runPipeline
  rw [sendNode_approved, sendNode_hrr]
  unfold routedState routeAfterGeneration
  cases h : (draftedState cfg clean o inp).human_review_required <;>
    simp [h, escalateNode, finalizeNode]

/-- C6 counterexample: a concrete run whose classification collaborator
raises (and where retrieval, generation and dispatch all succeed) ends
with the classification failure surfaced in the run's final error field
even though dispatch succeeded — not only dispatch failures are
surfaced. -/
theorem classification_error_surfaced :
    (runPipeline cfgW cleanW oracleClassifyFailW inpW chW).1.error =
      some "Classification failed: boom" ∧
    (runPipeline cfgW cleanW oracleClassifyFailW inpW chW).1.sent = true := by
  constructor <;> rfl

/-- C6 amended: the run's final error field is empty exactly when the
classification call, the generation call and the dispatch all succeed;
a retrieval failure is the only collaborator failure that is absorbed
without a trace, while classification and generation failures are
recorded in the error field (the latest failure wins) even though the
run still degrades to the documented fallback and dispatches. -/
theorem error_field_of_run (cfg : HumanInLoopConfig) (clean : String → String) (o : Oracle) (inp : EmailInput) (ch : ConversationHistory) :
    ((runPipeline cfg clean o inp ch).1.error = none) ↔
      (isOkE o.classifyResult = true ∧ isOkE o.generateResult = true ∧
        o.sendResult = Except.ok true) := by
  unfold runPipeline
  rw [sendNode_error, routedState_error, draftedState_error]
  rcases hsr : o.sendResult with e | b
  · cases o.classifyResult <;> cases o.generateResult <;> simp [isOkE]
  · cases b <;> cases o.classifyResult <;> cases o.generateResult <;> simp [isOkE]

/-- C7: with a fresh run id, the conversation is flushed to durable
storage iff dispatch succeeds; on success exactly two entries are stored
— the inbound body as the "user" entry first, then the final reply as
the "assistant" entry — and the flushed contents equal the in-memory
ones; on a failed or erroring dispatch the conversation store is
completely unchanged. -/
theorem dispatch_gates_conversation_flush (cfg : HumanInLoopConfig) (clean : String → String) (o : Oracle) (inp : EmailInput) (ch : ConversationHistory)
    (hmem : ch.conversations inp.id = none)
    (_hdisk : ch.disk inp.id = none) :
    ((runPipeline cfg clean o inp ch).1.sent = true →
      (runPipeline cfg clean o inp ch).2.conversations inp.id =
        some [⟨"user", inp.body, o.userTimestamp,
                [("subject", JsonVal.str inp.subject), ("from", JsonVal.str inp.from_email)]⟩,
              ⟨"assistant", ((runPipeline cfg clean o inp ch).1.final_response).getD "",
                o.assistantTimestamp,
                [("classification", classificationJson ((runPipeline cfg clean o inp ch).1.classification))]⟩] ∧
      (runPipeline cfg clean o inp ch).2.disk inp.id =
        (runPipeline cfg clean o inp ch).2.conversations inp.id) ∧
    ((runPipeline cfg clean o inp ch).1.sent = false →
      (runPipeline cfg clean o inp ch).2 = ch) := by
  have hin := routedState_inputs cfg clean o inp
  unfold runPipeline sendNode
  cases o.sendResult with
  | error e => simp
  | ok b =>
    cases b with
    | false => simp
    | true =>
      simp only [if_pos rfl, reduceIte]
      refine ⟨fun _ => ?_, fun hcontra => by simp at hcontra⟩
      rw [hin.2.2.1]
      constructor
      · simp [ConversationHistory.save_conversation, ConversationHistory.add_message,
              hmem, hin.1, hin.2.1, hin.2.2.2]
      · simp [ConversationHistory.save_conversation, ConversationHistory.add_message,
              hmem, hin.1, hin.2.1, hin.2.2.2]

theorem dispatch_gates_conversation_flush_witness :
    chW.conversations inpW.id = none ∧ chW.disk inpW.id = none ∧
    (((runPipeline cfgW cleanW oracleOkW inpW chW).1.sent = true →
      (runPipeline cfgW cleanW oracleOkW inpW chW).2.conversations inpW.id =
        some [⟨"user", inpW.body, oracleOkW.userTimestamp,
                [("subject", JsonVal.str inpW.subject), ("from", JsonVal.str inpW.from_email)]⟩,
              ⟨"assistant", ((runPipeline cfgW cleanW oracleOkW inpW chW).1.final_response).getD "",
                oracleOkW.assistantTimestamp,
                [("classification", classificationJson ((runPipeline cfgW cleanW oracleOkW inpW chW).1.classification))]⟩] ∧
      (runPipeline cfgW cleanW oracleOkW inpW chW).2.disk inpW.id =
        (runPipeline cfgW cleanW oracleOkW inpW chW).2.conversations inpW.id) ∧
    ((runPipeline cfgW cleanW oracleOkW inpW chW).1.sent = false →
      (runPipeline cfgW cleanW oracleOkW inpW chW).2 = chW)) :=
  ⟨rfl, rfl, dispatch_gates_conversation_flush cfgW cleanW oracleOkW inpW chW rfl rfl⟩

/-- C8: appending N ≥ 1 entries to a conversation id whose in-memory
history is empty, flushing, and loading the id back yields exactly the
appended entries, in append order, with identical role, content,
timestamp and metadata. -/
theorem conversation_roundtrip (ch : ConversationHistory) (conversation_id : String) (es : List EntrySpec)
    (hmem : ch.get_conversation conversation_id = []) (hne : es ≠ []) :
    ((((addMessages ch conversation_id es).save_conversation conversation_id).load_conversation conversation_id).get_conversation conversation_id) = es.map mkMessage := by
  obtain ⟨e, es', rfl⟩ := List.exists_cons_of_ne_nil hne
  unfold ConversationHistory.get_conversation at hmem
  have h1 : (ch.add_message conversation_id e.role e.content e.timestamp e.metadata).conversations conversation_id = some [mkMessage e] := by
    simp [ConversationHistory.add_message, hmem, mkMessage]
  have h3 : (addMessages ch conversation_id (e :: es')).conversations conversation_id =
      some (mkMessage e :: es'.map mkMessage) := by
    simpa [addMessages] using addMessages_some conversation_id es' _ _ h1
  simp [ConversationHistory.save_conversation, ConversationHistory.load_conversation,
        ConversationHistory.get_conversation, h3]

theorem conversation_roundtrip_witness :
    chW.get_conversation "conv-1" = [] ∧
    ((((addMessages chW "conv-1" entriesW).save_conversation "conv-1").load_conversation "conv-1").get_conversation "conv-1") = entriesW.map mkMessage :=
  ⟨rfl, conversation_roundtrip chW "conv-1" entriesW rfl (by simp [entriesW])⟩

/-- C10: with human-in-loop disabled the escalation decision is
constantly false — even for critical, maximally complex, sensitive
classifications — and consequently no run ever takes the escalation
path: the escalation flag of every final run state is false and the
conditional edge after generation always routes to finalize. -/
theorem human_in_loop_disabled_no_escalation (cfg : HumanInLoopConfig) (hdis : cfg.enabled = false) :
    (∀ c : ClassDict, checkHumanReviewRequired cfg c = false) ∧
    (∀ (clean : String → String) (o : Oracle) (inp : EmailInput) (ch : ConversationHistory),
      (runPipeline cfg clean o inp ch).1.human_review_required = false ∧
      routeAfterGeneration (draftedState cfg clean o inp) = "finalize") := by
  have hchk : ∀ c : ClassDict, checkHumanReviewRequired cfg c = false := fun c => by
    simp [checkHumanReviewRequired, hdis]
  refine ⟨hchk, fun clean o inp ch => ?_⟩
  have hd : (draftedState cfg clean o inp).human_review_required = false := by
    rw [draftedState_hrr]; cases o.classifyResult <;> simp [hchk]
  constructor
  · unfold runPipeline
    rw [sendNode_hrr, routedState_hrr]
    exact hd
  · simp [routeAfterGeneration, hd]

theorem human_in_loop_disabled_witness :
    checkHumanReviewRequired cfgDisabledW dictCriticalW = false ∧
    (runPipeline cfgDisabledW cleanW oracleEscW inpW chW).1.human_review_required = false :=
  ⟨(human_in_loop_disabled_no_escalation cfgDisabledW rfl).1 dictCriticalW,
   ((human_in_loop_disabled_no_escalation cfgDisabledW rfl).2 cleanW oracleEscW inpW chW).1⟩

end EmailAgent
